import Mathlib

/-!
Verification of the X-LoRA scalings protocol and memory-introspection utility
of hiive/mistral.rs, as a shallow embedding in Lean 4.

Embedded source files:
  * mistralrs-core/src/xlora_models/mod.rs
      (`ScalingsMaker::get_scalings`, `verify_sanity_adapters`, `NonGranularState`)
  * mistralrs-core/src/utils/memory_usage.rs
      (`get_available_memory_vm_stat`, `get_total_memory_vm_stat`,
       `MemoryUsage::get_memory_available`, `MemoryUsage::get_total_memory`)

Tensors are modelled abstractly: a tensor carries its dimension list, dtype,
device and an opaque value tag; `clone` is the identity (candle tensor clones
are shallow and value-equal), and `Tensor.zeros` is the all-zero value tag.
External collaborators (the classifier, the per-architecture forward pass, the
operating-system process calls) are parameters of the embedded functions,
following the interface boundary of the code.
-/

namespace Mistralrs

/-- Element types, as far as the embedded code distinguishes them. -/
inductive DType
  | u8
  | f16
  | f32
deriving DecidableEq, Repr

/-- Compute devices (`candle_core::Device`).  The CUDA/Metal payloads are the
device ordinals; nothing in the embedded code inspects them further. -/
inductive Device
  | cpu
  | cuda (ordinal : Nat)
  | metal (ordinal : Nat)
deriving DecidableEq, Repr

/-- Abstract tensor: dimension list, dtype, device, and an opaque value tag
standing for the element data.  `tag = 0` is the all-zeros value. -/
structure Tensor where
  dims : List Nat
  dtype : DType
  device : Device
  tag : Nat
deriving DecidableEq, Repr

/-- Errors of the embedded fallible operations (`candle_core::Error`):
`shape` is a shape/rank error as raised by `dims2`, `msg` is
`candle_core::Error::msg` / `bail!`. -/
inductive CErr
  | shape (dims : List Nat)
  | msg (s : String)
deriving DecidableEq, Repr

/-- Decidable equality of results, for evaluating the embedding on concrete
inputs. -/
instance {ε α : Type} [DecidableEq ε] [DecidableEq α] : DecidableEq (Except ε α) := by
  intro a b
  cases a <;> cases b <;> first
    | (apply isFalse; intro h; exact Except.noConfusion h)
    | · rename_i x y
        by_cases h : x = y
        · exact isTrue (by rw [h])
        · exact isFalse (by intro hc; cases hc; exact h rfl)

/-- Embeds `Tensor::dims2`: succeeds with the two dimensions exactly when the tensor
is rank 2, otherwise a shape error. -/
def Tensor.dims2 (t : Tensor) : Except CErr (Nat × Nat) :=
  match t.dims with
  | [d0, d1] => .ok (d0, d1)
  | _ => .error (.shape t.dims)

/-- Embeds `Tensor::clone`, which is value-preserving. -/
def Tensor.clone (t : Tensor) : Tensor := t

/-- Embeds `Tensor::zeros`. -/
def Tensor.zeros (dims : List Nat) (dtype : DType) (device : Device) : Tensor :=
  ⟨dims, dtype, device, 0⟩

/-- Number of elements of a tensor. -/
def Tensor.numel (t : Tensor) : Nat := t.dims.foldl (fun a b => a * b) 1

/-- An `f64` value that the orchestration code only passes around
(never computes with), e.g. `scaling_pass_value`; modelled opaquely. -/
structure F64 where
  tag : Nat
deriving DecidableEq, Repr

/-- One KV-cache slot: an optional (key, value) tensor pair. -/
abbrev KvSlot := Option (Tensor × Tensor)

/-- Modelled from the spec: the Generation Cache (`models::Cache`, whose
definition is not under src/).  Per the spec it owns an ordered sequence of
per-layer (key, value) pairs for the real pass (`cache.lock()` in the code),
the X-LoRA auxiliary KV sequence (`cache.xlora_lock()`), and one optional
scalings slot (`cache.get_scalings_cache()`) written only by the Scaling
Engine. -/
structure Cache where
  kv : List KvSlot
  xloraKv : List KvSlot
  scalingsCache : Option Tensor
deriving DecidableEq, Repr

/-- The mutable state threaded through a `get_scalings` call: the Generation
Cache, the contents of `non_granular_state.non_granular_index` (meaningful
only when a non-granular session is active), and two ghost instrumentation
counters recording how many times the underlying `forward` and the
classifier's `forward` collaborators were invoked (they play no role in the
data flow; they only make "no forward pass / no classifier call"
observable). -/
structure GsState where
  cache : Cache
  ngIndex : Nat
  fwdCalls : Nat
  clfCalls : Nat
deriving DecidableEq, Repr

/-- A `ScalingsMaker` implementation, i.e. the collaborator bundle the trait
requires: the dummy-scalings synthesis and forward mapping of the
`XLoraClassifier`, the classifier's `scaling_pass_value`, the dtype used for
dummy synthesis, and the underlying architecture's `forward`.  `forward`
receives and returns the two KV sequences of the Generation Cache (it may
mutate them arbitrarily) but, per the interface contract, never touches the
scalings slot. -/
structure Maker where
  dtype : DType
  scaling_pass_value : F64
  get_dummy_scalings : Nat → Nat → Device → DType → Except CErr Tensor
  classifier_forward : Tensor → Except CErr Tensor
  forward : Tensor → List Nat → Tensor → Tensor → Bool → Bool → Option F64 → List Nat →
    List KvSlot × List KvSlot → Except CErr (Tensor × (List KvSlot × List KvSlot))

/-- The zero placeholder written into each KV slot after an auxiliary full
pass: `Tensor::zeros((1,), DType::U8, &Device::Cpu)`, twice. -/
def kvPlaceholder : Tensor × Tensor :=
  (Tensor.zeros [1] .u8 .cpu, Tensor.zeros [1] .u8 .cpu)

/-- Tail of `get_scalings` from line 119 on: classifier forward, then the
threshold-conditioned write of the scalings slot. -/
def get_scalings_finish (m : Maker) (tgt_non_granular_index : Option Nat)
    (hidden_states : Tensor) (st : GsState) : Except CErr Tensor × GsState :=
  let st := { st with clfCalls := st.clfCalls + 1 }
  match m.classifier_forward hidden_states with
  | .error e => (.error e, st)
  | .ok scalings =>
    match tgt_non_granular_index with
    | some tgt =>
      if st.ngIndex = tgt then
        (.ok scalings, { st with cache := { st.cache with scalingsCache := some scalings.clone } })
      else
        (.ok scalings, st)
    | none => (.ok scalings, st)

/-- Body of `get_scalings` from line 77 on (after the non-granular
short-circuit/step-count block): dummy-scalings synthesis, the
`no_kv_cache`-branched forward pass (with the KV reset to placeholders on the
full-pass branch, sized by the X-LoRA cache length after the pass), then
`get_scalings_finish`. -/
def get_scalings_rest (m : Maker) (input_ids input_ids_full : Tensor)
    (seqlen_offsets seqlen_offsets_full : List Nat)
    (start_offsets_kernel start_offsets_kernel_full : Tensor)
    (no_kv_cache : Bool) (tgt_non_granular_index : Option Nat)
    (position_ids : List Nat) (b_size seq_len : Nat) (st : GsState) :
    Except CErr Tensor × GsState :=
  match m.get_dummy_scalings b_size seq_len input_ids.device m.dtype with
  | .error e => (.error e, st)
  | .ok dummy_scalings =>
    if no_kv_cache then
      let st := { st with fwdCalls := st.fwdCalls + 1 }
      match m.forward input_ids_full seqlen_offsets_full start_offsets_kernel_full.clone
          dummy_scalings true no_kv_cache (some m.scaling_pass_value) position_ids
          (st.cache.kv, st.cache.xloraKv) with
      | .error e => (.error e, st)
      | .ok (res, _kv1, xlora1) =>
        let new_cache : List KvSlot := List.replicate xlora1.length (some kvPlaceholder)
        let st := { st with cache := { st.cache with kv := new_cache, xloraKv := xlora1 } }
        get_scalings_finish m tgt_non_granular_index res st
    else
      let st := { st with fwdCalls := st.fwdCalls + 1 }
      match m.forward input_ids seqlen_offsets start_offsets_kernel.clone
          dummy_scalings false no_kv_cache (some m.scaling_pass_value) position_ids
          (st.cache.kv, st.cache.xloraKv) with
      | .error e => (.error e, st)
      | .ok (res, kv1, xlora1) =>
        let st := { st with cache := { st.cache with kv := kv1, xloraKv := xlora1 } }
        get_scalings_finish m tgt_non_granular_index res st

/-- Embeds `ScalingsMaker::get_scalings` (xlora_models/mod.rs lines 52-128).  The
presence of `non_granular_state` together with its `tgt_non_granular_index`
field is `tgt_non_granular_index : Option Nat`; the mutex-held counter is
`st.ngIndex`.  Mirrors the source order exactly: `dims2` checks first, then
the non-granular block (cache short-circuit, then the `seq_len == 1`
increment), then `get_scalings_rest`. -/
def get_scalings (m : Maker) (input_ids input_ids_full : Tensor)
    (seqlen_offsets seqlen_offsets_full : List Nat)
    (start_offsets_kernel start_offsets_kernel_full : Tensor)
    (no_kv_cache : Bool) (tgt_non_granular_index : Option Nat)
    (position_ids : List Nat) (st : GsState) : Except CErr Tensor × GsState :=
  match input_ids_full.dims2 with
  | .error e => (.error e, st)
  | .ok (b_size, _) =>
    match input_ids.dims2 with
    | .error e => (.error e, st)
    | .ok (_, seq_len) =>
      match tgt_non_granular_index with
      | some _ =>
        match st.cache.scalingsCache with
        | some scalings_cache => (.ok scalings_cache.clone, st)
        | none =>
          let st := if seq_len = 1 then { st with ngIndex := st.ngIndex + 1 } else st
          get_scalings_rest m input_ids input_ids_full seqlen_offsets seqlen_offsets_full
            start_offsets_kernel start_offsets_kernel_full no_kv_cache
            tgt_non_granular_index position_ids b_size seq_len st
      | none =>
        get_scalings_rest m input_ids input_ids_full seqlen_offsets seqlen_offsets_full
          start_offsets_kernel start_offsets_kernel_full no_kv_cache
          tgt_non_granular_index position_ids b_size seq_len st

/-! ### String primitives

The Rust string operations are modelled by structurally recursive functions
over the character list of a `String`, so that every embedded function can be
evaluated by the kernel on concrete inputs. -/

/-- Rust `str::starts_with(pat)` for a string pattern. -/
def strStartsWith (s pat : String) : Bool :=
  pat.toList.isPrefixOf s.toList

/-- Rust `str::ends_with(pat)` for a string pattern. -/
def strEndsWith (s pat : String) : Bool :=
  pat.toList.isSuffixOf s.toList

/-- Split a character list at every character satisfying `p` (keeping empty
segments, like Rust's `split`). -/
def splitOnPred (p : Char → Bool) : List Char → List (List Char)
  | [] => [[]]
  | x :: xs =>
    let r := splitOnPred p xs
    if p x then [] :: r
    else
      match r with
      | [] => [[x]]
      | y :: ys => (x :: y) :: ys

/-- Rust `str::trim`. -/
def rustTrim (s : String) : String :=
  ⟨((s.toList.dropWhile Char.isWhitespace).reverse.dropWhile Char.isWhitespace).reverse⟩

/-! ### Adapter topology validation -/

/-- Modelled from the spec: the `Ordering` configuration type
(`mistralrs_lora::Ordering`, not under src/) is "a mapping from layer path
(string) to adapter assignment"; modelled as an association list whose order
fixes the iteration order of `ordering.layers.keys()`. -/
structure AdapterOrdering where
  layers : List (String × Nat)
deriving DecidableEq, Repr

/-- The error message built by the `bail!` in `verify_sanity_adapters`. -/
def adapterLayerErrMsg (path : String) (supported_layers : List String) : String :=
  "Got a layer name `" ++ path ++ "` in the ordering, expected it to end with one of "
    ++ toString supported_layers

/-- The key loop of `verify_sanity_adapters`, over the ordering's layer paths
in iteration order. -/
def verify_sanity_paths (supported_layers : List String) : List String → Except CErr Unit
  | [] => .ok ()
  | path :: rest =>
    if supported_layers.any (fun layer => strEndsWith path layer) then
      verify_sanity_paths supported_layers rest
    else
      .error (.msg (adapterLayerErrMsg path supported_layers))

/-- Embeds `verify_sanity_adapters` (xlora_models/mod.rs lines 131-138). -/
def verify_sanity_adapters (ordering : AdapterOrdering) (supported_layers : List String) :
    Except CErr Unit :=
  verify_sanity_paths supported_layers (ordering.layers.map Prod.fst)

/-! ### Session runs

A generation session is a sequence of `get_scalings` calls sharing one
`NonGranularState` and one Generation Cache. -/

/-- The per-call arguments of one `get_scalings` invocation. -/
structure CallIn where
  m : Maker
  input_ids : Tensor
  input_ids_full : Tensor
  seqlen_offsets : List Nat
  seqlen_offsets_full : List Nat
  start_offsets_kernel : Tensor
  start_offsets_kernel_full : Tensor
  no_kv_cache : Bool
  position_ids : List Nat

/-- Run one call of a session. -/
def runCall (tgt_non_granular_index : Option Nat) (c : CallIn) (st : GsState) :
    Except CErr Tensor × GsState :=
  get_scalings c.m c.input_ids c.input_ids_full c.seqlen_offsets c.seqlen_offsets_full
    c.start_offsets_kernel c.start_offsets_kernel_full c.no_kv_cache
    tgt_non_granular_index c.position_ids st

/-- Run a sequence of calls, requiring every call to succeed (`none` as soon
as one call returns an error). -/
def runSessionOk (tgt_non_granular_index : Option Nat) :
    List CallIn → GsState → Option GsState
  | [], st => some st
  | c :: cs, st =>
    match runCall tgt_non_granular_index c st with
    | (.ok _, st1) => runSessionOk tgt_non_granular_index cs st1
    | (.error _, _) => none

/-- The `seq_len` a call derives from `input_ids` (trailing dimension);
meaningful for rank-2 inputs. -/
def seqLenOf (c : CallIn) : Nat :=
  match c.input_ids.dims with
  | [_, s] => s
  | _ => 0

/-- Both token tensors of the call are rank 2, as `dims2` demands. -/
def wellShaped (c : CallIn) : Prop :=
  c.input_ids.dims.length = 2 ∧ c.input_ids_full.dims.length = 2

instance (c : CallIn) : Decidable (wellShaped c) := by
  unfold wellShaped; infer_instance

/-- Number of single-token decode steps (`seq_len == 1`) in a call list. -/
def decodeCount (cs : List CallIn) : Nat :=
  (cs.filter (fun c => seqLenOf c == 1)).length

/-- Modelled from the spec: the session-start state.  `NonGranularState`
construction is not under src/; per the spec the counter tracks "how many
decode steps have occurred", so a fresh session starts with the counter at 0,
and the session's Generation Cache starts with an empty scalings slot.  The
initial KV sequences are arbitrary. -/
def initSessionState (kv0 xl0 : List KvSlot) : GsState :=
  { cache := { kv := kv0, xloraKv := xl0, scalingsCache := none }
    ngIndex := 0, fwdCalls := 0, clfCalls := 0 }

/-! ### Memory introspection (utils/memory_usage.rs)

The operating-system process invocations (`Command::new("vm_stat")`,
`Command::new("sysctl")`, the `sysinfo` crate) are collaborators; a process
invocation's outcome is collapsed to `VmExec`: the command failed, its stdout
was not valid UTF-8, or it produced a stdout string.  Rust panics (from the
`.unwrap()` calls and string slicing) are modelled explicitly as the
`panicked` outcome. -/

/-- Outcome of running an external command and decoding its stdout. -/
inductive VmExec
  | execError (emsg : String)
  | utf8Error (emsg : String)
  | output (stdout : String)
deriving DecidableEq, Repr

/-- The observable termination of an embedded Rust function: a `Result::Ok`,
a `Result::Err`, or a panic. -/
inductive Outcome (α : Type)
  | ok (val : α)
  | err (e : CErr)
  | panicked (pmsg : String)
deriving DecidableEq, Repr

/-- Rust `str::lines`: split at newlines, drop a final empty segment (the
optional final line ending), strip a trailing carriage return per line. -/
def rustLines (s : String) : List String :=
  let parts := (splitOnPred (fun c => c = Char.ofNat 10) s.toList).map
    (fun l => (⟨l⟩ : String))
  let parts :=
    match parts.reverse with
    | "" :: rest => rest.reverse
    | _ => parts
  parts.map fun l =>
    match l.toList.reverse with
    | c :: rest => if c = Char.ofNat 13 then (⟨rest.reverse⟩ : String) else l
    | [] => l

/-- Rust `str::split_whitespace` (ASCII-faithful). -/
def splitWhitespace (s : String) : List String :=
  (((splitOnPred Char.isWhitespace s.toList).filter fun t => t ≠ []).map
    fun l => (⟨l⟩ : String))

/-- Rust `str::trim_end_matches(c)` for a single-character pattern. -/
def trimEndMatchesChar (s : String) (c : Char) : String :=
  ⟨(s.toList.reverse.dropWhile (fun x => x = c)).reverse⟩

/-- Digit string to number. -/
def digitsToNat (cs : List Char) : Nat :=
  cs.foldl (fun acc c => acc * 10 + (c.toNat - 48)) 0

/-- Rust `str::parse::<usize>()` on a 64-bit target: an optional leading
sign, then a non-empty run of ASCII digits whose value fits in 64 bits. -/
def parseUsize (s : String) : Option Nat :=
  let cs := s.toList
  let cs :=
    match cs with
    | '+' :: rest => rest
    | rest => rest
  if cs ≠ [] ∧ cs.all Char.isDigit then
    let v := digitsToNat cs
    if v < 2 ^ 64 then some v else none
  else none

/-- Rust `str::find(pat)`: index of the first occurrence of `pat` in `hay`
(character index; byte-identical for the ASCII strings involved). -/
def findSub (hay pat : List Char) : Option Nat :=
  match hay with
  | [] => if pat.isEmpty then some 0 else none
  | _ :: t =>
    if pat.isPrefixOf hay then some 0
    else
      match findSub t pat with
      | some i => some (i + 1)
      | none => none

/-- The Rust panic message of `Option::unwrap`/`Result::unwrap` on a failed
integer parse. -/
def parsePanicMsg : String := "called Result::unwrap() on an Err value: ParseIntError"

/-- Accumulator of the `vm_stat` output-parsing loop. -/
structure VmParseSt where
  free_pages : Nat
  inactive_pages : Nat
  page_size : Nat
deriving DecidableEq, Repr

/-- One iteration of the `vm_stat` line loop (memory_usage.rs lines 22-40).
An `Except`-error is a panic: the `.unwrap()` on a failed parse, or the
out-of-range string slice `line[start + 3..end]` when `end < start + 3`. -/
def vmStatLine (acc : VmParseSt) (line : String) : Except String VmParseSt :=
  if strStartsWith line "Pages free:" then
    match (splitWhitespace line).get? 2 with
    | some value =>
      match parseUsize (trimEndMatchesChar value '.') with
      | some v => .ok { acc with free_pages := v }
      | none => .error parsePanicMsg
    | none => .ok acc
  else if strStartsWith line "Pages inactive:" then
    match (splitWhitespace line).get? 2 with
    | some value =>
      match parseUsize (trimEndMatchesChar value '.') with
      | some v => .ok { acc with inactive_pages := v }
      | none => .error parsePanicMsg
    | none => .ok acc
  else if strStartsWith line "Mach Virtual Memory Statistics:" then
    match findSub line.toList ("of ".toList) with
    | some start =>
      match findSub line.toList (" bytes)".toList) with
      | some stop =>
        if start + 3 ≤ stop then
          match parseUsize ⟨(line.toList.drop (start + 3)).take (stop - (start + 3))⟩ with
          | some v => .ok { acc with page_size := v }
          | none => .error parsePanicMsg
        else .error "byte index out of bounds in str slice"
      | none => .ok acc
    | none => .ok acc
  else .ok acc

/-- Embeds `get_available_memory_vm_stat` (memory_usage.rs lines 6-46), as a function
of the `vm_stat` process outcome. -/
def get_available_memory_vm_stat (vm_stat : VmExec) : Outcome Nat :=
  match vm_stat with
  | .execError e => .err (.msg ("Failed to execute vm_stat: " ++ e))
  | .utf8Error e => .err (.msg ("Failed to parse output: " ++ e))
  | .output output_str =>
    match (rustLines output_str).foldlM vmStatLine
        { free_pages := 0, inactive_pages := 0, page_size := 0 } with
    | .error p => .panicked p
    | .ok res => .ok ((res.free_pages + res.inactive_pages) * res.page_size)

/-- Strip all leading repetitions of `pat` (fuelled; the fuel `hay.length`
suffices since each strip of a non-empty pattern shortens the string). -/
def stripAllAux : Nat → List Char → List Char → List Char
  | 0, _, s => s
  | fuel + 1, pat, s =>
    if pat ≠ [] ∧ pat.isPrefixOf s then stripAllAux fuel pat (s.drop pat.length) else s

/-- Rust `str::trim_start_matches(pat)` for a string pattern. -/
def trimStartMatchesStr (s pat : String) : String :=
  ⟨stripAllAux s.toList.length pat.toList s.toList⟩

/-- Embeds `get_total_memory_vm_stat` (memory_usage.rs lines 48-64), as a function of
the `sysctl hw.memsize` process outcome. -/
def get_total_memory_vm_stat (sysctl_out : VmExec) : Outcome Nat :=
  match sysctl_out with
  | .execError e => .err (.msg ("Failed to execute sysctl: " ++ e))
  | .utf8Error e => .err (.msg ("Failed to parse output: " ++ e))
  | .output output_str =>
    match parseUsize (rustTrim (trimStartMatchesStr output_str "hw.memsize: ")) with
    | some v => .ok v
    | none => .panicked parsePanicMsg

/-- The platform collaborators of `MemoryUsage`: what `sysinfo` reports for
the CPU queries (a `u64` byte count; `usize::try_from` on the 64-bit targets
modelled here always succeeds) and the outcomes of the two external
commands. -/
structure MemEnv where
  sys_available_memory : Nat
  sys_total_memory : Nat
  vm_stat : VmExec
  sysctl_hw_memsize : VmExec
deriving DecidableEq, Repr

/-- Embeds `MemoryUsage::get_memory_available` (memory_usage.rs lines 70-115), for a
build without the `cuda` feature (the CUDA arm is the
`cfg(not(feature = "cuda"))` unsupported-device `bail!`). -/
def MemoryUsage.get_memory_available (env : MemEnv) (device : Device) : Outcome Nat :=
  match device with
  | .cpu => .ok env.sys_available_memory
  | .cuda _ => .err (.msg "Cannot get memory available for CUDA device")
  | .metal _ => get_available_memory_vm_stat env.vm_stat

/-- Embeds `MemoryUsage::get_total_memory` (memory_usage.rs lines 118-163), for a
build without the `cuda` feature. -/
def MemoryUsage.get_total_memory (env : MemEnv) (device : Device) : Outcome Nat :=
  match device with
  | .cpu => .ok env.sys_total_memory
  | .cuda _ => .err (.msg "Cannot get total memory for CUDA device")
  | .metal _ => get_total_memory_vm_stat env.sysctl_hw_memsize
/-! ### Concrete instances used by witnesses and counterexamples -/

/-- The session invariant of the non-granular protocol at threshold `N`,
after `d` successful single-token decode steps: below the threshold the
counter equals the decode count and the slot is empty; from the threshold on
the slot is populated. -/
def sessInv (N d : Nat) (st : GsState) : Prop :=
  if d < N then st.ngIndex = d ∧ st.cache.scalingsCache = none
  else st.cache.scalingsCache.isSome = true

instance (N d : Nat) (st : GsState) : Decidable (sessInv N d st) := by
  unfold sessInv; infer_instance

/-- A concrete collaborator bundle whose classifier, dummy synthesis and
forward pass always succeed. -/
def demoMaker : Maker where
  dtype := .f32
  scaling_pass_value := ⟨0⟩
  get_dummy_scalings := fun b s dev dt => .ok ⟨[b, s], dt, dev, 1⟩
  classifier_forward := fun _ => .ok ⟨[1, 1], .f32, .cpu, 7⟩
  forward := fun _ _ _ _ _ _ _ _ kvs => .ok (⟨[1, 1], .f32, .cpu, 3⟩, kvs)

/-- A single-token decode call (`seq_len == 1`) on the incremental path. -/
def demoDecode : CallIn where
  m := demoMaker
  input_ids := ⟨[1, 1], .u8, .cpu, 10⟩
  input_ids_full := ⟨[1, 5], .u8, .cpu, 11⟩
  seqlen_offsets := [0]
  seqlen_offsets_full := [0]
  start_offsets_kernel := ⟨[1], .u8, .cpu, 12⟩
  start_offsets_kernel_full := ⟨[1], .u8, .cpu, 13⟩
  no_kv_cache := false
  position_ids := [0]

/-- A multi-token prefill call (`seq_len == 5`). -/
def demoPrefill : CallIn :=
  { demoDecode with input_ids := ⟨[1, 5], .u8, .cpu, 10⟩ }

/-- The decode call routed through the auxiliary full pass
(`no_kv_cache = true`). -/
def demoFullCall : CallIn :=
  { demoDecode with no_kv_cache := true }

/-- A state whose KV slots hold real (non-placeholder) tensors and whose
scalings slot is empty. -/
def stC3 : GsState where
  cache :=
    { kv := [some (⟨[2, 3], .f32, .cpu, 5⟩, ⟨[2, 3], .f32, .cpu, 6⟩)]
      xloraKv := [some (⟨[2, 3], .f32, .cpu, 8⟩, ⟨[2, 3], .f32, .cpu, 9⟩)]
      scalingsCache := none }
  ngIndex := 0
  fwdCalls := 0
  clfCalls := 0

/-- A state whose scalings slot is already populated. -/
def stCached : GsState where
  cache :=
    { kv := [some (⟨[2, 3], .f32, .cpu, 5⟩, ⟨[2, 3], .f32, .cpu, 6⟩)]
      xloraKv := []
      scalingsCache := some ⟨[1, 1], .f32, .cpu, 42⟩ }
  ngIndex := 3
  fwdCalls := 0
  clfCalls := 0

/-- A platform environment whose `vm_stat` output has a free-pages line with
a non-numeric value field. -/
def envBadVmStat : MemEnv where
  sys_available_memory := 0
  sys_total_memory := 0
  vm_stat := .output "Pages free: x."
  sysctl_hw_memsize := .output "hw.memsize: 17179869184"


/-! ### Helper lemmas about `get_scalings` -/

theorem dims2_of_length_ne_two {t : Tensor} (h : t.dims.length ≠ 2) :
    t.dims2 = .error (.shape t.dims) := by
  unfold Tensor.dims2
  rcases hd : t.dims with _ | ⟨a, _ | ⟨b, _ | ⟨c, l⟩⟩⟩ <;> simp_all

theorem dims2_of_pair {t : Tensor} {a b : Nat} (h : t.dims = [a, b]) :
    t.dims2 = .ok (a, b) := by
  unfold Tensor.dims2
  rw [h]

theorem finish_ngIndex (m : Maker) (tgt : Option Nat) (hs : Tensor) (st : GsState) :
    ((get_scalings_finish m tgt hs st).2).ngIndex = st.ngIndex := by
  unfold get_scalings_finish
  dsimp only
  repeat' split
  all_goals rfl

theorem rest_ngIndex (m : Maker) (ii iif sok sokf : Tensor) (so sof : List Nat)
    (nkc : Bool) (tgt : Option Nat) (pos : List Nat) (b s : Nat) (st : GsState) :
    ((get_scalings_rest m ii iif so sof sok sokf nkc tgt pos b s st).2).ngIndex = st.ngIndex := by
  unfold get_scalings_rest
  dsimp only
  repeat' split
  all_goals (first | rfl | rw [finish_ngIndex])

theorem finish_slot_of_tgt_none (m : Maker) (hs : Tensor) (st : GsState) :
    ((get_scalings_finish m none hs st).2).cache.scalingsCache = st.cache.scalingsCache := by
  unfold get_scalings_finish
  dsimp only
  repeat' split
  all_goals rfl

theorem rest_slot_of_tgt_none (m : Maker) (ii iif sok sokf : Tensor) (so sof : List Nat)
    (nkc : Bool) (pos : List Nat) (b s : Nat) (st : GsState) :
    ((get_scalings_rest m ii iif so sof sok sokf nkc none pos b s st).2).cache.scalingsCache =
      st.cache.scalingsCache := by
  unfold get_scalings_rest
  dsimp only
  repeat' split
  all_goals (first | rfl | rw [finish_slot_of_tgt_none])

/-- The steady-state short-circuit: with a non-granular session and a
populated scalings slot, a well-shaped call returns the cached tensor and
leaves the state (cache, counter, ghost call counts) untouched. -/
theorem gs_short_circuit (m : Maker) {ii iif : Tensor} (sok sokf : Tensor)
    (so sof : List Nat) (nkc : Bool) (t : Nat) (pos : List Nat) {st : GsState}
    {v : Tensor} {a b c d : Nat}
    (hv : st.cache.scalingsCache = some v)
    (hi : ii.dims = [a, b]) (hf : iif.dims = [c, d]) :
    get_scalings m ii iif so sof sok sokf nkc (some t) pos st = (.ok v, st) := by
  unfold get_scalings
  rw [dims2_of_pair hf, dims2_of_pair hi, hv]
  rfl

/-- Success characterization of the post-short-circuit body: the counter is
untouched, and the scalings slot is written (with the returned scalings)
exactly when the counter equals the threshold. -/
theorem rest_ok_some (m : Maker) (ii iif sok sokf : Tensor) (so sof : List Nat)
    (nkc : Bool) (N : Nat) (pos : List Nat) (b s : Nat) (st st' : GsState) (r : Tensor)
    (h : get_scalings_rest m ii iif so sof sok sokf nkc (some N) pos b s st = (.ok r, st')) :
    st'.ngIndex = st.ngIndex ∧
      st'.cache.scalingsCache =
        (if st.ngIndex = N then some r else st.cache.scalingsCache) := by
  unfold get_scalings_rest get_scalings_finish at h
  dsimp only at h
  repeat' split at h
  all_goals simp_all [Tensor.clone]
  all_goals (obtain ⟨h1, h2⟩ := h; subst h1; subst h2; simp)

/-- The per-call counter law: a well-shaped call advances the counter by one
exactly when a non-granular session is active, the scalings slot is empty and
`seq_len == 1`; otherwise the counter is unchanged. -/
theorem gs_ngIndex (m : Maker) {ii iif : Tensor} (sok sokf : Tensor) (so sof : List Nat)
    (nkc : Bool) (tgt : Option Nat) (pos : List Nat) {st : GsState} {a s c d : Nat}
    (hi : ii.dims = [a, s]) (hf : iif.dims = [c, d]) :
    ((get_scalings m ii iif so sof sok sokf nkc tgt pos st).2).ngIndex =
      st.ngIndex +
        (if tgt.isSome ∧ st.cache.scalingsCache = none ∧ s = 1 then 1 else 0) := by
  unfold get_scalings
  rw [dims2_of_pair hf, dims2_of_pair hi]
  dsimp only
  cases tgt with
  | none => simp [rest_ngIndex]
  | some t =>
    cases hv : st.cache.scalingsCache with
    | some v => simp [hv]
    | none =>
      simp only [hv]
      by_cases hs1 : s = 1
      · simp [hs1, rest_ngIndex]
      · simp [hs1, rest_ngIndex]

/-- Success characterization of a non-granular call on an empty slot: the
counter advances iff `seq_len == 1`, and the slot is seeded (with the
returned scalings) exactly when the advanced counter equals the threshold. -/
theorem gs_ok_slot (m : Maker) {ii iif : Tensor} (sok sokf : Tensor) (so sof : List Nat)
    (nkc : Bool) (N : Nat) (pos : List Nat) {st st' : GsState} {r : Tensor} {a s c d : Nat}
    (hi : ii.dims = [a, s]) (hf : iif.dims = [c, d])
    (hv : st.cache.scalingsCache = none)
    (h : get_scalings m ii iif so sof sok sokf nkc (some N) pos st = (.ok r, st')) :
    st'.ngIndex = st.ngIndex + (if s = 1 then 1 else 0) ∧
      st'.cache.scalingsCache =
        (if st.ngIndex + (if s = 1 then 1 else 0) = N then some r else none) := by
  unfold get_scalings at h
  rw [dims2_of_pair hf, dims2_of_pair hi, hv] at h
  dsimp only at h
  by_cases hs1 : s = 1
  · rw [if_pos hs1] at h
    obtain ⟨h1, h2⟩ := rest_ok_some _ _ _ _ _ _ _ _ _ _ _ _ _ _ _ h
    simp only [hs1] at *
    simp_all
  · rw [if_neg hs1] at h
    obtain ⟨h1, h2⟩ := rest_ok_some _ _ _ _ _ _ _ _ _ _ _ _ _ _ _ h
    simp_all

/-- A populated scalings slot is never overwritten or cleared by any
`get_scalings` call, whatever the session mode, inputs or outcome. -/
theorem gs_slot_preserved (m : Maker) (ii iif sok sokf : Tensor) (so sof : List Nat)
    (nkc : Bool) (tgt : Option Nat) (pos : List Nat) (st : GsState) (v : Tensor)
    (hv : st.cache.scalingsCache = some v) :
    ((get_scalings m ii iif so sof sok sokf nkc tgt pos st).2).cache.scalingsCache = some v := by
  unfold get_scalings
  rcases h2 : iif.dims2 with e | ⟨c, d⟩
  · simp [hv]
  · rcases h1 : ii.dims2 with e | ⟨a, b⟩
    · simp [hv]
    · cases tgt with
      | none => simp [rest_slot_of_tgt_none, hv]
      | some t => simp [hv]

theorem seqLenOf_eq {c : CallIn} {a s : Nat} (h : c.input_ids.dims = [a, s]) :
    seqLenOf c = s := by
  unfold seqLenOf
  rw [h]

theorem decodeCount_cons (c : CallIn) (cs : List CallIn) :
    decodeCount (c :: cs) = (if seqLenOf c = 1 then 1 else 0) + decodeCount cs := by
  unfold decodeCount
  by_cases h : seqLenOf c = 1 <;> simp [List.filter_cons, h, Nat.add_comm]

/-- The session invariant is inductive along any run of successful calls, and
at the end of the run it pins down whether the scalings slot is populated:
exactly when the decode-step count has reached the threshold. -/
theorem session_inv_run (N : Nat) (cs : List CallIn) :
    ∀ (d : Nat) (st st' : GsState),
      (∀ c ∈ cs, wellShaped c) → sessInv N d st →
      runSessionOk (some N) cs st = some st' →
      (st'.cache.scalingsCache.isSome = true ↔ N ≤ d + decodeCount cs) := by
  induction cs with
  | nil =>
    intro d st st' _ hinv hrun
    simp only [runSessionOk, Option.some.injEq] at hrun
    subst hrun
    by_cases hd : d < N
    · rw [sessInv, if_pos hd] at hinv
      simp only [decodeCount, List.filter_nil, List.length_nil, Nat.add_zero, hinv.2]
      simp
      omega
    · rw [sessInv, if_neg hd] at hinv
      simp only [decodeCount, List.filter_nil, List.length_nil, Nat.add_zero, hinv]
      simp
      omega
  | cons c cs ih =>
    intro d st st' hws hinv hrun
    obtain ⟨hi2, hf2⟩ := hws c (List.mem_cons_self c cs)
    obtain ⟨a, s, his⟩ := List.length_eq_two.mp hi2
    obtain ⟨cc, dd, hfs⟩ := List.length_eq_two.mp hf2
    unfold runSessionOk at hrun
    rcases hc : runCall (some N) c st with ⟨res, st1⟩
    rw [hc] at hrun
    cases res with
    | error e => simp at hrun
    | ok t =>
      simp only at hrun
      rw [decodeCount_cons, seqLenOf_eq his]
      by_cases hd : d < N
      · rw [sessInv, if_pos hd] at hinv
        obtain ⟨hng, hslot⟩ := hinv
        unfold runCall at hc
        obtain ⟨h1, h2⟩ := gs_ok_slot c.m c.start_offsets_kernel c.start_offsets_kernel_full
          c.seqlen_offsets c.seqlen_offsets_full c.no_kv_cache N c.position_ids
          his hfs hslot hc
        have hinv1 : sessInv N (d + (if s = 1 then 1 else 0)) st1 := by
          by_cases hd1 : d + (if s = 1 then 1 else 0) < N
          · rw [sessInv, if_pos hd1]
            refine ⟨by rw [h1, hng], ?_⟩
            rw [h2, hng, if_neg (by omega)]
          · rw [sessInv, if_neg hd1]
            have : st.ngIndex + (if s = 1 then 1 else 0) = N := by
              by_cases hs1 : s = 1 <;> simp [hs1] at * <;> omega
            rw [h2, if_pos this]
            rfl
        have := ih (d + (if s = 1 then 1 else 0)) st1 st'
          (fun x hx => hws x (List.mem_cons_of_mem c hx)) hinv1 hrun
        rw [this]
        omega
      · rw [sessInv, if_neg hd] at hinv
        obtain ⟨v, hv⟩ := Option.isSome_iff_exists.mp hinv
        unfold runCall at hc
        rw [gs_short_circuit c.m c.start_offsets_kernel c.start_offsets_kernel_full
          c.seqlen_offsets c.seqlen_offsets_full c.no_kv_cache N c.position_ids hv his hfs] at hc
        have hst1 : st1 = st := by
          have := congrArg Prod.snd hc
          simpa using this.symm
        subst hst1
        have hinv1 : sessInv N (d + (if s = 1 then 1 else 0)) st1 := by
          rw [sessInv, if_neg (by omega)]
          exact hinv
        have := ih (d + (if s = 1 then 1 else 0)) st1 st'
          (fun x hx => hws x (List.mem_cons_of_mem c hx)) hinv1 hrun
        rw [this]
        omega
/-! ### Claim theorems -/

/-- C1: for a non-granular session with threshold `N ≥ 1`: (i) a well-shaped
`get_scalings` call advances `non_granular_index` by exactly one iff
`non_granular_state` is present, the scalings slot is not yet populated and
`seq_len == 1`, and leaves it unchanged otherwise — in particular prefill
calls (`seq_len > 1`) never advance it; (ii) along any session of successful
well-shaped calls starting from a fresh session state, the scalings slot is
populated exactly from the Nth single-token decode step onward, inclusive. -/
theorem C1_threshold_exactness (N : Nat) (hN : 1 ≤ N) :
    (∀ (tgt : Option Nat) (c : CallIn) (st : GsState), wellShaped c →
      ((runCall tgt c st).2).ngIndex =
        st.ngIndex +
          (if tgt.isSome ∧ st.cache.scalingsCache = none ∧ seqLenOf c = 1 then 1 else 0)) ∧
    (∀ (cs : List CallIn) (kv0 xl0 : List KvSlot) (st' : GsState),
      (∀ c ∈ cs, wellShaped c) →
      runSessionOk (some N) cs (initSessionState kv0 xl0) = some st' →
      (st'.cache.scalingsCache.isSome = true ↔ N ≤ decodeCount cs)) := by
  constructor
  · intro tgt c st hws
    obtain ⟨hi2, hf2⟩ := hws
    obtain ⟨a, s, his⟩ := List.length_eq_two.mp hi2
    obtain ⟨cc, dd, hfs⟩ := List.length_eq_two.mp hf2
    rw [seqLenOf_eq his]
    unfold runCall
    exact gs_ngIndex c.m c.start_offsets_kernel c.start_offsets_kernel_full
      c.seqlen_offsets c.seqlen_offsets_full c.no_kv_cache tgt c.position_ids his hfs
  · intro cs kv0 xl0 st' hws hrun
    have h0 : sessInv N 0 (initSessionState kv0 xl0) := by
      rw [sessInv, if_pos (by omega)]
      exact ⟨rfl, rfl⟩
    have h := session_inv_run N cs 0 (initSessionState kv0 xl0) st' hws h0 hrun
    simpa using h

/-- Witness for C1 at `N = 1`: one successful single-token decode step from a
fresh session advances the counter by one and populates the slot. -/
theorem C1_threshold_exactness_witness :
    ((runCall (some 1) demoDecode (initSessionState [] [])).2).ngIndex =
      (initSessionState [] []).ngIndex +
        (if (some 1 : Option Nat).isSome ∧
            (initSessionState [] []).cache.scalingsCache = none ∧ seqLenOf demoDecode = 1
          then 1 else 0) ∧
    ((⟨⟨[], [], some ⟨[1, 1], .f32, .cpu, 7⟩⟩, 1, 1, 1⟩ :
        GsState).cache.scalingsCache.isSome = true ↔ 1 ≤ decodeCount [demoDecode]) := by
  constructor
  · exact (C1_threshold_exactness 1 (by omega)).1 (some 1) demoDecode _ (by decide)
  · exact (C1_threshold_exactness 1 (by omega)).2 [demoDecode] [] []
      ⟨⟨[], [], some ⟨[1, 1], .f32, .cpu, 7⟩⟩, 1, 1, 1⟩ (by decide) (by decide)

/-- C2: with `non_granular_state` present and the scalings slot already
populated, `get_scalings` returns a copy of the cached tensor immediately and
performs no forward pass and no classifier call (the ghost call counters are
unchanged), for well-shaped inputs of any shapes. -/
theorem C2_short_circuit_copy (m : Maker) (ii iif sok sokf : Tensor) (so sof : List Nat)
    (nkc : Bool) (t : Nat) (pos : List Nat) (st : GsState) (v : Tensor) (a b c d : Nat)
    (hv : st.cache.scalingsCache = some v)
    (hi : ii.dims = [a, b]) (hf : iif.dims = [c, d]) :
    get_scalings m ii iif so sof sok sokf nkc (some t) pos st = (.ok (Tensor.clone v), st) ∧
    ((get_scalings m ii iif so sof sok sokf nkc (some t) pos st).2).fwdCalls = st.fwdCalls ∧
    ((get_scalings m ii iif so sof sok sokf nkc (some t) pos st).2).clfCalls = st.clfCalls := by
  have h := gs_short_circuit m sok sokf so sof nkc t pos hv hi hf
  exact ⟨h, by rw [h], by rw [h]⟩

/-- Witness for C2: a prefill-shaped call (shape `1×5`, different from the
`1×1` shape that could have produced the cached value) against a populated
slot returns the cached tensor with both ghost call counters unchanged. -/
theorem C2_short_circuit_copy_witness :
    runCall (some 3) demoPrefill stCached =
      (.ok (Tensor.clone ⟨[1, 1], .f32, .cpu, 42⟩), stCached) ∧
    ((runCall (some 3) demoPrefill stCached).2).fwdCalls = stCached.fwdCalls ∧
    ((runCall (some 3) demoPrefill stCached).2).clfCalls = stCached.clfCalls := by
  exact C2_short_circuit_copy demoPrefill.m demoPrefill.input_ids demoPrefill.input_ids_full
    demoPrefill.start_offsets_kernel demoPrefill.start_offsets_kernel_full
    demoPrefill.seqlen_offsets demoPrefill.seqlen_offsets_full demoPrefill.no_kv_cache
    3 demoPrefill.position_ids stCached _ 1 5 1 5 rfl rfl rfl

/-- C4: once the scalings slot holds a value, no `get_scalings` call ever
rewrites it (whatever the inputs, session mode or outcome), and with
`non_granular_state` present every well-shaped subsequent call returns that
value unchanged. -/
theorem C4_slot_write_once (m : Maker) (ii iif sok sokf : Tensor) (so sof : List Nat)
    (nkc : Bool) (tgt : Option Nat) (pos : List Nat) (st : GsState) (v : Tensor)
    (hv : st.cache.scalingsCache = some v) :
    ((get_scalings m ii iif so sof sok sokf nkc tgt pos st).2).cache.scalingsCache = some v ∧
    (∀ (t : Nat) (a b c d : Nat), tgt = some t → ii.dims = [a, b] → iif.dims = [c, d] →
      get_scalings m ii iif so sof sok sokf nkc tgt pos st = (.ok v, st)) := by
  refine ⟨gs_slot_preserved m ii iif sok sokf so sof nkc tgt pos st v hv, ?_⟩
  rintro t a b c d rfl hi hf
  exact gs_short_circuit m sok sokf so sof nkc t pos hv hi hf

/-- Witness for C4: a decode call against a populated slot leaves the slot
holding the same tensor and returns it with the state unchanged. -/
theorem C4_slot_write_once_witness :
    ((runCall (some 3) demoDecode stCached).2).cache.scalingsCache =
      some ⟨[1, 1], .f32, .cpu, 42⟩ ∧
    runCall (some 3) demoDecode stCached = (.ok ⟨[1, 1], .f32, .cpu, 42⟩, stCached) := by
  have h := C4_slot_write_once demoDecode.m demoDecode.input_ids demoDecode.input_ids_full
    demoDecode.start_offsets_kernel demoDecode.start_offsets_kernel_full
    demoDecode.seqlen_offsets demoDecode.seqlen_offsets_full demoDecode.no_kv_cache
    (some 3) demoDecode.position_ids stCached _ rfl
  exact ⟨h.1, h.2 3 1 1 1 5 rfl rfl rfl⟩

/-- C9: once the scalings slot is populated (non-granular mode),
`non_granular_index` is frozen: no subsequent call changes it, whatever the
input shapes or outcome; moreover a well-shaped call's only effect is to
return a copy of the cached tensor, leaving the whole state unchanged. -/
theorem C9_counter_frozen (m : Maker) (ii iif sok sokf : Tensor) (so sof : List Nat)
    (nkc : Bool) (t : Nat) (pos : List Nat) (st : GsState) (v : Tensor)
    (hv : st.cache.scalingsCache = some v) :
    ((get_scalings m ii iif so sof sok sokf nkc (some t) pos st).2).ngIndex = st.ngIndex ∧
    (∀ (a b c d : Nat), ii.dims = [a, b] → iif.dims = [c, d] →
      get_scalings m ii iif so sof sok sokf nkc (some t) pos st = (.ok (Tensor.clone v), st)) := by
  constructor
  · unfold get_scalings
    rcases h2 : iif.dims2 with e | ⟨c, d⟩
    · simp
    · rcases h1 : ii.dims2 with e | ⟨a, b⟩
      · simp
      · simp [hv]
  · intro a b c d hi hf
    exact gs_short_circuit m sok sokf so sof nkc t pos hv hi hf

/-- Witness for C9: the decode call against a populated slot leaves the
counter at its lock-in value (3) and returns the cached tensor. -/
theorem C9_counter_frozen_witness :
    ((runCall (some 3) demoDecode stCached).2).ngIndex = stCached.ngIndex ∧
    runCall (some 3) demoDecode stCached =
      (.ok (Tensor.clone ⟨[1, 1], .f32, .cpu, 42⟩), stCached) := by
  have h := C9_counter_frozen demoDecode.m demoDecode.input_ids demoDecode.input_ids_full
    demoDecode.start_offsets_kernel demoDecode.start_offsets_kernel_full
    demoDecode.seqlen_offsets demoDecode.seqlen_offsets_full demoDecode.no_kv_cache
    3 demoDecode.position_ids stCached _ rfl
  exact ⟨h.1, h.2 1 1 1 5 rfl rfl⟩

/-- C6: if `input_ids_full` or `input_ids` is not two-dimensional, the call
fails with a shape error before any side effect: the returned state is the
input state, so the counter, the KV slots and the scalings slot are all
unchanged. -/
theorem C6_shape_error_pure (m : Maker) (ii iif sok sokf : Tensor)
    (so sof : List Nat) (nkc : Bool) (tgt : Option Nat) (pos : List Nat) (st : GsState) :
    (iif.dims.length ≠ 2 →
      get_scalings m ii iif so sof sok sokf nkc tgt pos st = (.error (.shape iif.dims), st)) ∧
    (iif.dims.length = 2 → ii.dims.length ≠ 2 →
      get_scalings m ii iif so sof sok sokf nkc tgt pos st = (.error (.shape ii.dims), st)) := by
  constructor
  · intro h
    unfold get_scalings
    rw [dims2_of_length_ne_two h]
  · intro h2 h1
    obtain ⟨c, d, hfs⟩ := List.length_eq_two.mp h2
    unfold get_scalings
    rw [dims2_of_pair hfs, dims2_of_length_ne_two h1]

/-- Witness for C6: a rank-1 `input_ids_full` (resp. `input_ids`) produces a
shape error with the state returned untouched. -/
theorem C6_shape_error_pure_witness :
    get_scalings demoMaker ⟨[1, 1], .u8, .cpu, 10⟩ ⟨[5], .u8, .cpu, 11⟩ [0] [0]
      ⟨[1], .u8, .cpu, 12⟩ ⟨[1], .u8, .cpu, 13⟩ false (some 2) [0] stC3 =
      (.error (.shape [5]), stC3) ∧
    get_scalings demoMaker ⟨[7], .u8, .cpu, 10⟩ ⟨[1, 5], .u8, .cpu, 11⟩ [0] [0]
      ⟨[1], .u8, .cpu, 12⟩ ⟨[1], .u8, .cpu, 13⟩ false (some 2) [0] stC3 =
      (.error (.shape [7]), stC3) := by
  constructor
  · exact (C6_shape_error_pure demoMaker _ _ _ _ _ _ false (some 2) [0] stC3).1 (by decide)
  · exact (C6_shape_error_pure demoMaker _ _ _ _ _ _ false (some 2) [0] stC3).2
      (by decide) (by decide)
/-! ### C3: KV reset after the auxiliary full pass -/

theorem finish_kv (m : Maker) (tgt : Option Nat) (hs : Tensor) (st : GsState) :
    ((get_scalings_finish m tgt hs st).2).cache.kv = st.cache.kv := by
  unfold get_scalings_finish
  dsimp only
  repeat' split
  all_goals rfl

/-- After a successful `no_kv_cache = true` forward pass, the body replaces
the whole KV sequence with placeholders, one per X-LoRA cache slot. -/
theorem rest_kv_reset (m : Maker) (ii iif sok sokf : Tensor) (so sof : List Nat)
    (tgt : Option Nat) (pos : List Nat) (b s : Nat) (st : GsState)
    (dummy hidden : Tensor) (kv1 xl1 : List KvSlot)
    (hdum : m.get_dummy_scalings b s ii.device m.dtype = .ok dummy)
    (hfwd : m.forward iif sof sokf.clone dummy true true (some m.scaling_pass_value) pos
        (st.cache.kv, st.cache.xloraKv) = .ok (hidden, kv1, xl1)) :
    ((get_scalings_rest m ii iif so sof sok sokf true tgt pos b s st).2).cache.kv =
      List.replicate xl1.length (some kvPlaceholder) := by
  unfold get_scalings_rest
  rw [hdum]
  dsimp only
  rw [if_pos rfl, hfwd]
  dsimp only
  rw [finish_kv]

/-- C3 (amended): after any `get_scalings` call that reaches the
`no_kv_cache = true` forward pass and whose forward pass succeeds, every KV
slot of the Generation Cache equals the placeholder pair of one-element zeros
tensors (shape `(1,)`, dtype U8, on CPU) — not a length-zero tensor —
regardless of the slots' prior contents; the number of KV slots equals the
X-LoRA cache slot count after the pass, hence is unchanged whenever the
per-layer slot-count invariant holds. -/
theorem C3_kv_reset_amended (m : Maker) (ii iif sok sokf : Tensor) (so sof : List Nat)
    (tgt : Option Nat) (pos : List Nat) (st : GsState) (a s c d : Nat)
    (dummy hidden : Tensor) (kv1 xl1 : List KvSlot)
    (hi : ii.dims = [a, s]) (hf : iif.dims = [c, d])
    (hsc : tgt = none ∨ st.cache.scalingsCache = none)
    (hdum : m.get_dummy_scalings c s ii.device m.dtype = .ok dummy)
    (hfwd : m.forward iif sof sokf.clone dummy true true (some m.scaling_pass_value) pos
        (st.cache.kv, st.cache.xloraKv) = .ok (hidden, kv1, xl1)) :
    ((get_scalings m ii iif so sof sok sokf true tgt pos st).2).cache.kv =
        List.replicate xl1.length (some kvPlaceholder) ∧
    (∀ slot ∈ ((get_scalings m ii iif so sof sok sokf true tgt pos st).2).cache.kv,
      slot = some kvPlaceholder) ∧
    (xl1.length = st.cache.kv.length →
      ((get_scalings m ii iif so sof sok sokf true tgt pos st).2).cache.kv.length =
        st.cache.kv.length) := by
  have key : ((get_scalings m ii iif so sof sok sokf true tgt pos st).2).cache.kv =
      List.replicate xl1.length (some kvPlaceholder) := by
    unfold get_scalings
    rw [dims2_of_pair hf, dims2_of_pair hi]
    dsimp only
    cases tgt with
    | none =>
      exact rest_kv_reset m ii iif sok sokf so sof none pos c s st dummy hidden kv1 xl1
        hdum hfwd
    | some t =>
      rcases hsc with h | h
      · exact absurd h (by simp)
      · rw [h]
        dsimp only
        by_cases hs1 : s = 1
        · rw [if_pos hs1]
          exact rest_kv_reset m ii iif sok sokf so sof (some t) pos c s _ dummy hidden kv1 xl1
            hdum hfwd
        · rw [if_neg hs1]
          exact rest_kv_reset m ii iif sok sokf so sof (some t) pos c s st dummy hidden kv1 xl1
            hdum hfwd
  refine ⟨key, ?_, fun hlen => ?_⟩
  · intro slot hslot
    rw [key] at hslot
    exact List.eq_of_mem_replicate hslot
  · rw [key, List.length_replicate, hlen]

/-- Counterexample to C3 as stated: a concrete call through the
`no_kv_cache = true` branch leaves every KV slot equal to the placeholder
pair whose tensors have one element each — not zero — so the slots do not
equal a length-zero placeholder. -/
theorem C3_counterexample :
    ((runCall none demoFullCall stC3).2).cache.kv = [some kvPlaceholder] ∧
    kvPlaceholder.1.numel = 1 ∧ kvPlaceholder.2.numel = 1 ∧
    ¬ kvPlaceholder.1.numel = 0 := by
  refine ⟨by decide, rfl, rfl, by decide⟩

/-- Witness for the amended C3: in the concrete call of the counterexample,
the prior KV slot held `2×3` tensors and is reset to the placeholder pair,
with the slot count (one) preserved. -/
theorem C3_kv_reset_amended_witness :
    ((runCall none demoFullCall stC3).2).cache.kv =
      List.replicate (1 : Nat) (some kvPlaceholder) ∧
    (∀ slot ∈ ((runCall none demoFullCall stC3).2).cache.kv, slot = some kvPlaceholder) ∧
    ((runCall none demoFullCall stC3).2).cache.kv.length = stC3.cache.kv.length := by
  have h := C3_kv_reset_amended demoFullCall.m demoFullCall.input_ids
    demoFullCall.input_ids_full demoFullCall.start_offsets_kernel
    demoFullCall.start_offsets_kernel_full demoFullCall.seqlen_offsets
    demoFullCall.seqlen_offsets_full none demoFullCall.position_ids stC3 1 1 1 5
    (⟨[1, 1], .f32, .cpu, 1⟩ : Tensor) (⟨[1, 1], .f32, .cpu, 3⟩ : Tensor)
    stC3.cache.kv stC3.cache.xloraKv rfl rfl (Or.inl rfl) rfl rfl
  exact ⟨h.1, h.2.1, h.2.2 rfl⟩
/-! ### C5: adapter topology validation -/

theorem verify_paths_ok (sup : List String) (ps : List String)
    (h : ∀ p ∈ ps, (sup.any fun layer => strEndsWith p layer) = true) :
    verify_sanity_paths sup ps = .ok () := by
  induction ps with
  | nil => rfl
  | cons p ps ih =>
    unfold verify_sanity_paths
    rw [if_pos (h p (List.mem_cons_self p ps))]
    exact ih fun q hq => h q (List.mem_cons_of_mem p hq)

theorem verify_paths_first_violation (sup : List String) (p : String) (l2 : List String)
    (hp : (sup.any fun layer => strEndsWith p layer) = false) :
    ∀ l1 : List String, (∀ q ∈ l1, (sup.any fun layer => strEndsWith q layer) = true) →
      verify_sanity_paths sup (l1 ++ p :: l2) =
        .error (.msg (adapterLayerErrMsg p sup)) := by
  intro l1
  induction l1 with
  | nil =>
    intro _
    show verify_sanity_paths sup (p :: l2) = _
    unfold verify_sanity_paths
    rw [if_neg (by simp [hp])]
  | cons q l1 ih =>
    intro h
    show verify_sanity_paths sup (q :: (l1 ++ p :: l2)) = _
    unfold verify_sanity_paths
    rw [if_pos (h q (List.mem_cons_self q l1))]
    exact ih fun r hr => h r (List.mem_cons_of_mem q hr)

/-- C5: `verify_sanity_adapters` succeeds exactly on orderings all of whose
layer paths end with a supported suffix; on an ordering whose path iteration
order has a first violating path, it fails with the error naming that exact
path and the full supported-suffix list (fail-fast: paths before the
violation must all be valid, nothing is skipped). -/
theorem C5_validator_totality (ordering : AdapterOrdering) (supported_layers : List String) :
    ((∀ path ∈ ordering.layers.map Prod.fst,
        (supported_layers.any fun layer => strEndsWith path layer) = true) →
      verify_sanity_adapters ordering supported_layers = .ok ()) ∧
    (∀ (l1 : List String) (p : String) (l2 : List String),
      ordering.layers.map Prod.fst = l1 ++ p :: l2 →
      (∀ q ∈ l1, (supported_layers.any fun layer => strEndsWith q layer) = true) →
      (supported_layers.any fun layer => strEndsWith p layer) = false →
      verify_sanity_adapters ordering supported_layers =
        .error (.msg (adapterLayerErrMsg p supported_layers))) := by
  constructor
  · intro h
    exact verify_paths_ok supported_layers (ordering.layers.map Prod.fst) h
  · intro l1 p l2 hsplit hok hbad
    unfold verify_sanity_adapters
    rw [hsplit]
    exact verify_paths_first_violation supported_layers p l2 hbad l1 hok

/-- Witness for C5, the spec's scenario: a `q_proj` path passes with suffixes
`["q_proj", "k_proj"]`; the path `model.layers.0.foo` fails naming exactly
that path and the suffix list. -/
theorem C5_validator_totality_witness :
    verify_sanity_adapters ⟨[("model.layers.0.self_attn.q_proj", 0)]⟩
      ["q_proj", "k_proj"] = .ok () ∧
    verify_sanity_adapters ⟨[("model.layers.0.foo", 0)]⟩ ["q_proj", "k_proj"] =
      .error (.msg (adapterLayerErrMsg "model.layers.0.foo" ["q_proj", "k_proj"])) := by
  constructor
  · exact (C5_validator_totality ⟨[("model.layers.0.self_attn.q_proj", 0)]⟩
      ["q_proj", "k_proj"]).1 (by decide)
  · exact (C5_validator_totality ⟨[("model.layers.0.foo", 0)]⟩ ["q_proj", "k_proj"]).2
      [] "model.layers.0.foo" [] rfl (by decide) (by decide)

/-! ### C10 and C7: memory introspection -/

theorem vmStatLine_skip (acc : VmParseSt) (line : String)
    (h1 : strStartsWith line "Pages free:" = false)
    (h2 : strStartsWith line "Pages inactive:" = false)
    (h3 : strStartsWith line "Mach Virtual Memory Statistics:" = false) :
    vmStatLine acc line = .ok acc := by
  unfold vmStatLine
  simp [h1, h2, h3]

theorem vmStatFold_skip (lines : List String) (acc : VmParseSt)
    (h : ∀ line ∈ lines,
      strStartsWith line "Pages free:" = false ∧
      strStartsWith line "Pages inactive:" = false ∧
      strStartsWith line "Mach Virtual Memory Statistics:" = false) :
    lines.foldlM vmStatLine acc = .ok acc := by
  induction lines generalizing acc with
  | nil => rfl
  | cons l ls ih =>
    obtain ⟨h1, h2, h3⟩ := h l (List.mem_cons_self l ls)
    rw [List.foldlM_cons, vmStatLine_skip acc l h1 h2 h3]
    exact ih acc fun q hq => h q (List.mem_cons_of_mem l hq)

/-- C10: when the `vm_stat` command succeeds but its output contains no line
starting with `Pages free:`, `Pages inactive:` or
`Mach Virtual Memory Statistics:`, `get_available_memory_vm_stat` — and hence
the Metal path of `get_memory_available` — returns `Ok(0)` (zero available
bytes) rather than a parse error. -/
theorem C10_vm_stat_no_match_zero (out : String)
    (h : ∀ line ∈ rustLines out,
      strStartsWith line "Pages free:" = false ∧
      strStartsWith line "Pages inactive:" = false ∧
      strStartsWith line "Mach Virtual Memory Statistics:" = false) :
    get_available_memory_vm_stat (.output out) = .ok 0 ∧
    (∀ (env : MemEnv) (n : Nat), env.vm_stat = .output out →
      MemoryUsage.get_memory_available env (.metal n) = .ok 0) := by
  have key : get_available_memory_vm_stat (.output out) = .ok 0 := by
    unfold get_available_memory_vm_stat
    dsimp only
    rw [vmStatFold_skip (rustLines out) _ h]
    rfl
  refine ⟨key, fun env n he => ?_⟩
  unfold MemoryUsage.get_memory_available
  rw [he]
  exact key

/-- Witness for C10: the output `"hello\nworld"` contains none of the
recognized lines and yields an available-memory figure of zero bytes. -/
theorem C10_vm_stat_no_match_zero_witness :
    get_available_memory_vm_stat (.output "hello\nworld") = .ok 0 ∧
    MemoryUsage.get_memory_available
      ⟨0, 0, .output "hello\nworld", .output ""⟩ (.metal 0) = .ok 0 := by
  have h := C10_vm_stat_no_match_zero "hello\nworld" (by decide)
  exact ⟨h.1, h.2 ⟨0, 0, .output "hello\nworld", .output ""⟩ 0 rfl⟩

/-- Counterexample to C7 as stated: `get_memory_available` on a Metal device
whose `vm_stat` runs successfully but reports a non-numeric free-pages value
terminates by panicking (the `.unwrap()` on the failed parse), not by
returning a `Result`. -/
theorem C7_counterexample :
    MemoryUsage.get_memory_available envBadVmStat (Device.metal 0) =
      .panicked parsePanicMsg := by
  decide

/-- C7 (amended): `get_memory_available` and `get_total_memory` return a byte
count on CPU, an unsupported-device error on CUDA (non-CUDA build), and on
Metal an error whenever the underlying command fails to execute or its output
is not valid UTF-8; however, when a numeric field of a successfully captured
output fails to parse they panic instead of returning a `Result` (see the
counterexample). -/
theorem C7_memory_result_amended :
    (∀ env : MemEnv, MemoryUsage.get_memory_available env .cpu =
      .ok env.sys_available_memory) ∧
    (∀ (env : MemEnv) (n : Nat), MemoryUsage.get_memory_available env (.cuda n) =
      .err (.msg "Cannot get memory available for CUDA device")) ∧
    (∀ (env : MemEnv) (n : Nat) (e : String), env.vm_stat = .execError e →
      MemoryUsage.get_memory_available env (.metal n) =
        .err (.msg ("Failed to execute vm_stat: " ++ e))) ∧
    (∀ (env : MemEnv) (n : Nat) (e : String), env.vm_stat = .utf8Error e →
      MemoryUsage.get_memory_available env (.metal n) =
        .err (.msg ("Failed to parse output: " ++ e))) ∧
    (∀ env : MemEnv, MemoryUsage.get_total_memory env .cpu = .ok env.sys_total_memory) ∧
    (∀ (env : MemEnv) (n : Nat), MemoryUsage.get_total_memory env (.cuda n) =
      .err (.msg "Cannot get total memory for CUDA device")) ∧
    (∀ (env : MemEnv) (n : Nat) (e : String), env.sysctl_hw_memsize = .execError e →
      MemoryUsage.get_total_memory env (.metal n) =
        .err (.msg ("Failed to execute sysctl: " ++ e))) ∧
    (∀ (env : MemEnv) (n : Nat) (e : String), env.sysctl_hw_memsize = .utf8Error e →
      MemoryUsage.get_total_memory env (.metal n) =
        .err (.msg ("Failed to parse output: " ++ e))) := by
  refine ⟨fun env => rfl, fun env n => rfl, ?_, ?_, fun env => rfl, fun env n => rfl, ?_, ?_⟩
  all_goals
    intro env n e he
    first
      | (show get_available_memory_vm_stat env.vm_stat = _
         rw [he]
         rfl)
      | (show get_total_memory_vm_stat env.sysctl_hw_memsize = _
         rw [he]
         rfl)

/-- Witness for the amended C7: concrete evaluations of each clause. -/
theorem C7_memory_result_amended_witness :
    MemoryUsage.get_memory_available ⟨77, 99, .execError "spawn failed", .output ""⟩ .cpu =
      .ok 77 ∧
    MemoryUsage.get_memory_available ⟨77, 99, .execError "spawn failed", .output ""⟩
      (.cuda 0) = .err (.msg "Cannot get memory available for CUDA device") ∧
    MemoryUsage.get_memory_available ⟨77, 99, .execError "spawn failed", .output ""⟩
      (.metal 0) = .err (.msg ("Failed to execute vm_stat: " ++ "spawn failed")) ∧
    MemoryUsage.get_total_memory ⟨77, 99, .output "", .utf8Error "bad byte"⟩ (.metal 1) =
      .err (.msg ("Failed to parse output: " ++ "bad byte")) := by
  refine ⟨(C7_memory_result_amended.1 _), (C7_memory_result_amended.2.1 _ 0), ?_, ?_⟩
  · exact C7_memory_result_amended.2.2.1 ⟨77, 99, .execError "spawn failed", .output ""⟩
      0 "spawn failed" rfl
  · exact C7_memory_result_amended.2.2.2.2.2.2.2 ⟨77, 99, .output "", .utf8Error "bad byte"⟩
      1 "bad byte" rfl
end Mistralrs
